import Mathlib

/-!
Verification of the wind-exposure classification service (src/main.py).

The embedding models the service's pure computational core over exact
rationals: the decimal literals of the source (30.0, 0.3048, 3.281,
2600.0, 5000.0, 20.0) and every comparison the claims exercise have
margins far wider than double-precision rounding error, so `ℚ` is a
faithful model of the Python floats at every input used below.

The external land-cover raster (rasterio dataset, pyproj transformer) is
abstracted, exactly as the spec's Land-Cover Lookup collaborator, as a
function from a bearing and a step index to `Option ℤ`: `some code` when
`dataset.index`/`dataset.read` succeed at the step's coordinate, `none`
when they raise (the `except Exception` path of
`sample_upwind_roughness`).
-/

namespace WindExposure

/-- ASCE surface-roughness / exposure letter category, the values of the
Python strings "B", "C", "D" used throughout `src/main.py`. -/
inductive Roughness where
  | B
  | C
  | D
deriving DecidableEq, Repr

/-- `PIXEL_SIZE_M = 30.0` (src/main.py line 32). -/
def PIXEL_SIZE_M : ℚ := 30

/-- `DIRECTIONS` (src/main.py lines 35–44): the eight compass bearings. -/
def DIRECTIONS : List (String × ℚ) :=
  [("N", 0), ("NE", 45), ("E", 90), ("SE", 135),
   ("S", 180), ("SW", 225), ("W", 270), ("NW", 315)]

/-- `nlcd_to_roughness` (src/main.py lines 69–78): map an NLCD land-cover
code to a roughness category. -/
def nlcd_to_roughness (value : ℤ) : Roughness :=
  if value = 11 then .D
  else if value = 21 ∨ value = 22 ∨ value = 23 ∨ value = 24 ∨
          value = 41 ∨ value = 42 ∨ value = 43 then .B
  else .C

/-- Modelled from the spec: the Roughness Classifier's contract
`classify(code | unavailable) -> RoughnessCategory` (spec §4.3) also covers
the `unavailable` sentinel, which is absent from `nlcd_to_roughness` in
src/ (the service absorbs lookup failures in the sampler instead); per the
spec, `unavailable` classifies to the conservative default C, and integer
codes go through the source table. -/
def classify (code : Option ℤ) : Roughness :=
  match code with
  | some v => nlcd_to_roughness v
  | none => .C

/-- Number of sampling steps (src/main.py lines 95–96):
`steps = int(fetch_ft * 0.3048 / PIXEL_SIZE_M)`; `int()` truncates, and the
quotient is nonnegative for the nonnegative fetches used, so `⌊·⌋`. -/
def steps_of_fetch (fetch_ft : ℚ) : ℕ :=
  ⌊fetch_ft * 0.3048 / PIXEL_SIZE_M⌋.toNat

/-- `sample_upwind_roughness` (src/main.py lines 81–111) for one bearing,
with the raster lookup at the i-th step abstracted as `lookup i`.
For each `i in range(1, steps + 1)` the code appends
`nlcd_to_roughness(val)` when the raster access succeeds and `continue`s
(appends nothing) when it raises. -/
def sample_upwind_roughness (lookup : ℕ → Option ℤ) (fetch_ft : ℚ) :
    List Roughness :=
  (List.range' 1 (steps_of_fetch fetch_ft)).filterMap
    (fun i => (lookup i).map nlcd_to_roughness)

/-- `req_B` (src/main.py line 118): `max(2600.0, 20.0 * height_ft)`. -/
def req_B (height_ft : ℚ) : ℚ := max 2600 (20 * height_ft)

/-- `req_D` (src/main.py line 119): `max(5000.0, 20.0 * height_ft)`. -/
def req_D (height_ft : ℚ) : ℚ := max 5000 (20 * height_ft)

/-- `determine_exposure` (src/main.py lines 114–127): the per-direction
threshold reducer.  `roughness.count("D") * PIXEL_SIZE_M * 3.281 >= req_D`
yields D, else the analogous B test yields B, else C. -/
def determine_exposure (roughness : List Roughness) (height_ft : ℚ) :
    Roughness :=
  if (roughness.count .D : ℚ) * PIXEL_SIZE_M * 3.281 ≥ req_D height_ft then .D
  else if (roughness.count .B : ℚ) * PIXEL_SIZE_M * 3.281 ≥ req_B height_ft then .B
  else .C

/-- One entry of the `results` list built by `exposure`
(src/main.py lines 172–181); the constant engineering note is omitted. -/
structure DirectionResult where
  direction : String
  bearing_deg : ℚ
  exposure : Roughness
  sample_count : ℕ
deriving DecidableEq, Repr

/-- The JSON body returned by `exposure` (src/main.py lines 183–197);
constant fields (data source, ASCE references, status) are omitted. -/
structure ExposureReport where
  latitude : ℚ
  longitude : ℚ
  building_height_ft : ℚ
  governing_exposure : Roughness
  directions : List DirectionResult
deriving DecidableEq, Repr

/-- The rejections `exposure` can raise: the three
`HTTPException(status_code=400, ...)` branches (src/main.py lines 145–155)
and FastAPI's validation of `height_ft: float = Query(..., gt=0)`
(line 139), which fires before the handler body runs. -/
inductive RequestError where
  | heightNotPositive
  | missingCoords
  | latOutOfRange
  | lonOutOfRange
deriving DecidableEq, Repr

/-- `latitude_val = lat if lat is not None else latitude`
(src/main.py line 142). -/
def resolve_latitude (lat latitude : Option ℚ) : Option ℚ :=
  match lat with
  | some v => some v
  | none => latitude

/-- `longitude_val = lon if lon is not None else lng if lng is not None
else longitude` (src/main.py line 143). -/
def resolve_longitude (lon lng longitude : Option ℚ) : Option ℚ :=
  match lon with
  | some v => some v
  | none =>
    match lng with
    | some v => some v
    | none => longitude

/-- The step of the `governing` update in the direction loop
(src/main.py lines 167–170): `if exposure_cat == "D": governing = "D"`,
`elif exposure_cat == "B" and governing != "D": governing = "B"`. -/
def governing_step (g : Roughness) (c : Roughness) : Roughness :=
  if c = .D then .D
  else if c = .B ∧ g ≠ .D then .B
  else g

/-- The governing category accumulated over a list of per-direction
categories, starting from `governing = "C"` (src/main.py line 158). -/
def governing_of (cats : List Roughness) : Roughness :=
  cats.foldl governing_step .C

/-- The `/exposure` endpoint (src/main.py lines 132–197).  The raster is
abstracted as `lookup bearing step`; everything else follows the handler:
FastAPI's `gt=0` check on `height_ft`, alias resolution, the missing-
coordinate and range rejections, then the eight-direction loop with
`fetch_ft = max(20.0 * height_ft, 5000.0)` (line 161). -/
def exposure (lookup : ℚ → ℕ → Option ℤ)
    (lat latitude lon lng longitude : Option ℚ) (height_ft : ℚ) :
    Except RequestError ExposureReport :=
  if ¬ height_ft > 0 then .error .heightNotPositive
  else
    match resolve_latitude lat latitude,
          resolve_longitude lon lng longitude with
    | some latitude_val, some longitude_val =>
      if ¬ (-90 ≤ latitude_val ∧ latitude_val ≤ 90) then
        .error .latOutOfRange
      else if ¬ (-180 ≤ longitude_val ∧ longitude_val ≤ 180) then
        .error .lonOutOfRange
      else
        let fetch_ft : ℚ := max (20 * height_ft) 5000
        let results : List DirectionResult := DIRECTIONS.map (fun d =>
          let roughness_vals := sample_upwind_roughness (lookup d.2) fetch_ft
          let exposure_cat := determine_exposure roughness_vals height_ft
          { direction := d.1
            bearing_deg := d.2
            exposure := exposure_cat
            sample_count := roughness_vals.length })
        let governing :=
          results.foldl (fun g r => governing_step g r.exposure) .C
        .ok
          { latitude := latitude_val
            longitude := longitude_val
            building_height_ft := height_ft
            governing_exposure := governing
            directions := results }
    | _, _ => .error .missingCoords

/-- The `results` list built by the direction loop of `exposure`
(src/main.py lines 160–181), for a valid request. -/
def direction_results (lookup : ℚ → ℕ → Option ℤ) (height_ft : ℚ) :
    List DirectionResult :=
  DIRECTIONS.map (fun d =>
    let roughness_vals :=
      sample_upwind_roughness (lookup d.2) (max (20 * height_ft) 5000)
    { direction := d.1
      bearing_deg := d.2
      exposure := determine_exposure roughness_vals height_ft
      sample_count := roughness_vals.length })

/-- The Exposure Reducer's threshold mode in the spec's own words
(spec §4.5): cumulative along-direction length in feet attributable to
samples classified D, and separately to B, each sample contributing one
step's length of `PIXEL_SIZE_M * 3.281` ft; D if the D-length meets its
requirement, else B if the B-length meets its requirement, else C. -/
def reducer_spec (roughness : List Roughness) (height_ft : ℚ) : Roughness :=
  let step_len_ft : ℚ := PIXEL_SIZE_M * 3.281
  let lenD : ℚ :=
    ((roughness.filter (· == Roughness.D)).map (fun _ => step_len_ft)).sum
  let lenB : ℚ :=
    ((roughness.filter (· == Roughness.B)).map (fun _ => step_len_ft)).sum
  if lenD ≥ req_D height_ft then .D
  else if lenB ≥ req_B height_ft then .B
  else .C

/-- Evidence strength of a category for the reducer's branch order:
the D branch is tested first, then B, with C the fallthrough. -/
def strength : Roughness → ℕ
  | .C => 0
  | .B => 1
  | .D => 2

lemma sum_map_const {α : Type} (l : List α) (c : ℚ) :
    (l.map (fun _ => c)).sum = l.length * c := by
  induction l with
  | nil => simp
  | cons a t ih => simp [ih]; ring

lemma length_filter_beq (l : List Roughness) (r : Roughness) :
    (l.filter (· == r)).length = l.count r := by
  simp [List.count, List.countP_eq_length_filter]

/-- C3: the per-direction reducer returns D when the cumulative length of
D-classified samples meets `max(5000, 20·height)` ft, else B when the
cumulative length of B-classified samples meets `max(2600, 20·height)` ft,
else C; an empty sample sequence reduces to C. -/
theorem c3_threshold_reducer (s : List Roughness) (h : ℚ) :
    determine_exposure s h = reducer_spec s h ∧
    determine_exposure [] h = .C := by
  constructor
  · unfold determine_exposure reducer_spec
    simp only [sum_map_const, length_filter_beq, mul_assoc]
  · have h1 : ¬ ((0 : ℚ) ≥ req_D h) := by
      simp only [req_D, ge_iff_le, not_le]
      calc (0 : ℚ) < 5000 := by norm_num
        _ ≤ max 5000 (20 * h) := le_max_left _ _
    have h2 : ¬ ((0 : ℚ) ≥ req_B h) := by
      simp only [req_B, ge_iff_le, not_le]
      calc (0 : ℚ) < 2600 := by norm_num
        _ ≤ max 2600 (20 * h) := le_max_left _ _
    simp [determine_exposure, h1, h2]

/-- C10: the per-direction reducer is invariant under permutation of its
input, and more precisely depends only on the counts of B-classified and
D-classified samples. -/
theorem c10_permutation_invariant (s₁ s₂ : List Roughness) (h : ℚ)
    (hp : s₁.Perm s₂) :
    determine_exposure s₁ h = determine_exposure s₂ h ∧
    (∀ t₁ t₂ : List Roughness, t₁.count .B = t₂.count .B →
      t₁.count .D = t₂.count .D →
      determine_exposure t₁ h = determine_exposure t₂ h) := by
  have key : ∀ t₁ t₂ : List Roughness, t₁.count .B = t₂.count .B →
      t₁.count .D = t₂.count .D →
      determine_exposure t₁ h = determine_exposure t₂ h := by
    intro t₁ t₂ hB hD
    unfold determine_exposure
    rw [hB, hD]
  exact ⟨key s₁ s₂ (hp.count_eq _) (hp.count_eq _), key⟩

/-- Witness for C10 at a concrete permutation. -/
theorem c10_permutation_invariant_witness :
    determine_exposure [.D, .B, .C] 10 = determine_exposure [.C, .B, .D] 10 :=
  (c10_permutation_invariant [.D, .B, .C] [.C, .B, .D] 10 (by decide)).1

/-- C7: the classifier is total — every integer code and the unavailable
sentinel yield exactly one of B, C, D — with 11 ↦ D, the
developed/forest codes 21–24 and 41–43 ↦ B, and every other value,
unrecognized codes and unavailable included, ↦ C. -/
theorem c7_classifier_total (code : Option ℤ) :
    (classify code = .B ∨ classify code = .C ∨ classify code = .D) ∧
    classify (some 11) = .D ∧
    classify none = .C ∧
    (∀ v : ℤ, code = some v →
      ((v = 21 ∨ v = 22 ∨ v = 23 ∨ v = 24 ∨ v = 41 ∨ v = 42 ∨ v = 43) →
        classify code = .B) ∧
      ((¬ v = 11) ∧
        ¬(v = 21 ∨ v = 22 ∨ v = 23 ∨ v = 24 ∨ v = 41 ∨ v = 42 ∨ v = 43) →
        classify code = .C)) := by
  refine ⟨?_, by decide, by decide, ?_⟩
  · cases code with
    | none => simp [classify]
    | some v =>
      simp only [classify, nlcd_to_roughness]
      split_ifs <;> simp
  · intro v hv
    subst hv
    constructor
    · intro hB
      simp only [classify, nlcd_to_roughness]
      rw [if_neg (by rcases hB with h | h | h | h | h | h | h <;> omega),
        if_pos hB]
    · intro ⟨h11, hrest⟩
      simp only [classify, nlcd_to_roughness]
      rw [if_neg h11, if_neg hrest]

/-- Witness for C7 at concrete codes 37 (unrecognized) and 41 (forest). -/
theorem c7_classifier_total_witness :
    classify (some 37) = .C ∧ classify (some 41) = .B :=
  ⟨((c7_classifier_total (some 37)).2.2.2 37 rfl).2 (by decide),
   ((c7_classifier_total (some 41)).2.2.2 41 rfl).1 (by decide)⟩

/-- C5 counterexample: on 51 D-samples followed by 103 B-samples, raising
the height from 5 ft to 300 ft moves the classification from D to B — it
neither stays the same nor moves to C, refuting "never toward D or B".
(At h = 5: 51·98.43 = 5019.93 ≥ 5000 so D wins; at h = 300 both
requirements become 6000, the D length 5019.93 falls short but the B
length 103·98.43 = 10138.29 does not.) -/
theorem c5_counterexample :
    (5 : ℚ) ≤ 300 ∧
    determine_exposure (List.replicate 51 .D ++ List.replicate 103 .B) 5 =
      .D ∧
    determine_exposure (List.replicate 51 .D ++ List.replicate 103 .B) 300 =
      .B ∧
    ¬ (determine_exposure (List.replicate 51 .D ++ List.replicate 103 .B) 300 =
        determine_exposure (List.replicate 51 .D ++ List.replicate 103 .B) 5 ∨
       determine_exposure (List.replicate 51 .D ++ List.replicate 103 .B) 300 =
        .C) := by
  have hD : (List.replicate 51 Roughness.D ++
      List.replicate 103 Roughness.B).count Roughness.D = 51 := by
    rw [List.count_append, List.count_replicate_self, List.count_replicate]
    simp
  have hB : (List.replicate 51 Roughness.D ++
      List.replicate 103 Roughness.B).count Roughness.B = 103 := by
    rw [List.count_append, List.count_replicate_self, List.count_replicate]
    simp
  have hrD5 : req_D 5 = 5000 := by
    rw [req_D, max_eq_left (by norm_num)]
  have hrD300 : req_D 300 = 6000 := by
    rw [req_D, max_eq_right (by norm_num)]; norm_num
  have hrB300 : req_B 300 = 6000 := by
    rw [req_B, max_eq_right (by norm_num)]; norm_num
  have e5 : determine_exposure
      (List.replicate 51 .D ++ List.replicate 103 .B) 5 = .D := by
    unfold determine_exposure
    rw [hD, hrD5, if_pos (by norm_num [PIXEL_SIZE_M])]
  have e300 : determine_exposure
      (List.replicate 51 .D ++ List.replicate 103 .B) 300 = .B := by
    unfold determine_exposure
    rw [hD, hB, hrD300, hrB300,
      if_neg (by norm_num [PIXEL_SIZE_M]), if_pos (by norm_num [PIXEL_SIZE_M])]
  refine ⟨by norm_num, e5, e300, ?_⟩
  rw [e5, e300]
  simp

/-- C5 amended: the required B- and D-lengths are monotone in height, and
for a fixed sample sequence the classification is antitone in the branch
order C < B < D: raising the height never strengthens the result, though a
D result may weaken to B as well as to C. -/
theorem c5_amended (s : List Roughness) (h₁ h₂ : ℚ) (hle : h₁ ≤ h₂) :
    req_B h₁ ≤ req_B h₂ ∧ req_D h₁ ≤ req_D h₂ ∧
    strength (determine_exposure s h₂) ≤ strength (determine_exposure s h₁) := by
  have hB : req_B h₁ ≤ req_B h₂ := max_le_max le_rfl (by linarith)
  have hD : req_D h₁ ≤ req_D h₂ := max_le_max le_rfl (by linarith)
  refine ⟨hB, hD, ?_⟩
  unfold determine_exposure
  split_ifs <;> simp [strength] <;> linarith

/-- Witness for C5 amended at a concrete sample sequence and heights. -/
theorem c5_amended_witness :
    req_B 5 ≤ req_B 300 ∧ req_D 5 ≤ req_D 300 ∧
    strength (determine_exposure (List.replicate 51 Roughness.D) 300) ≤
      strength (determine_exposure (List.replicate 51 Roughness.D) 5) :=
  c5_amended (List.replicate 51 .D) 5 300 (by norm_num)

lemma foldl_governing (cats : List Roughness) :
    ∀ g, cats.foldl governing_step g =
      if g = .D ∨ .D ∈ cats then .D
      else if g = .B ∨ .B ∈ cats then .B
      else g := by
  induction cats with
  | nil => intro g; cases g <;> simp
  | cons c cs ih =>
    intro g
    rw [List.foldl_cons, ih]
    cases c <;> cases g <;>
      simp +decide [governing_step, List.mem_cons]

/-- The governing category of a list of per-direction categories: any D
wins, else any B wins, else C — the closed form of the source's
accumulator loop. -/
lemma governing_of_eq (cats : List Roughness) :
    governing_of cats =
      if .D ∈ cats then .D else if .B ∈ cats then .B else .C := by
  unfold governing_of
  rw [foldl_governing]
  simp

/-- The report built by the ok branch of `exposure` once the coordinates
have been resolved and validated. -/
def report (lookup : ℚ → ℕ → Option ℤ) (lv lov h : ℚ) : ExposureReport :=
  let results := direction_results lookup h
  { latitude := lv
    longitude := lov
    building_height_ft := h
    governing_exposure :=
      results.foldl (fun g r => governing_step g r.exposure) .C
    directions := results }

lemma exposure_eq_ok (lookup : ℚ → ℕ → Option ℤ)
    (lat latitude lon lng longitude : Option ℚ) (h lv lov : ℚ)
    (hlat : resolve_latitude lat latitude = some lv)
    (hlon : resolve_longitude lon lng longitude = some lov)
    (h0 : 0 < h) (h1 : -90 ≤ lv) (h2 : lv ≤ 90)
    (h3 : -180 ≤ lov) (h4 : lov ≤ 180) :
    exposure lookup lat latitude lon lng longitude h =
      .ok (report lookup lv lov h) := by
  unfold exposure
  rw [hlat, hlon, if_neg (not_not_intro h0)]
  dsimp only
  rw [if_neg (not_not_intro ⟨h1, h2⟩), if_neg (not_not_intro ⟨h3, h4⟩)]
  rfl

lemma report_governing (lookup : ℚ → ℕ → Option ℤ) (lv lov h : ℚ) :
    (report lookup lv lov h).governing_exposure =
      governing_of ((direction_results lookup h).map (fun r => r.exposure)) := by
  unfold report governing_of
  rw [List.foldl_map]

lemma sample_const (v : ℤ) (fetch : ℚ) :
    sample_upwind_roughness (fun _ => some v) fetch =
      List.replicate (steps_of_fetch fetch) (nlcd_to_roughness v) := by
  unfold sample_upwind_roughness
  show (List.range' 1 (steps_of_fetch fetch)).filterMap
      (fun _ => some (nlcd_to_roughness v)) = _
  have key : ∀ l : List ℕ,
      l.filterMap (fun _ => some (nlcd_to_roughness v)) =
        List.replicate l.length (nlcd_to_roughness v) := by
    intro l
    induction l with
    | nil => rfl
    | cons a t ih => simp [List.filterMap_cons, ih, List.replicate_succ]
  rw [key, List.length_range']

lemma steps_of_fetch_5000 : steps_of_fetch 5000 = 50 := by
  unfold steps_of_fetch PIXEL_SIZE_M
  have hq : ((5000 : ℚ) * 0.3048 / 30) = 254 / 5 := by norm_num
  rw [hq]
  have hf : ⌊(254 / 5 : ℚ)⌋ = 50 := by
    rw [Int.floor_eq_iff]
    norm_num
  rw [hf]
  rfl

lemma fetch_at_10 : max (20 * (10 : ℚ)) 5000 = 5000 :=
  max_eq_right (by norm_num)

lemma req_D_at_10 : req_D 10 = 5000 := by
  rw [req_D, max_eq_left (by norm_num)]

lemma req_B_at_10 : req_B 10 = 2600 := by
  rw [req_B, max_eq_left (by norm_num)]

lemma det_50D_at_10 : determine_exposure (List.replicate 50 .D) 10 = .C := by
  unfold determine_exposure
  rw [List.count_replicate_self, List.count_replicate]
  have hbeq : (Roughness.D == Roughness.B) = false := by decide
  rw [hbeq, req_D_at_10, req_B_at_10, if_neg (by norm_num [PIXEL_SIZE_M]),
    if_neg (by norm_num [PIXEL_SIZE_M])]

lemma det_50B_at_10 : determine_exposure (List.replicate 50 .B) 10 = .B := by
  unfold determine_exposure
  rw [List.count_replicate_self, List.count_replicate]
  have hbeq : (Roughness.B == Roughness.D) = false := by decide
  rw [hbeq, req_D_at_10, req_B_at_10, if_neg (by norm_num [PIXEL_SIZE_M]),
    if_pos (by norm_num [PIXEL_SIZE_M])]

lemma det_50C_at_10 : determine_exposure (List.replicate 50 .C) 10 = .C := by
  unfold determine_exposure
  rw [List.count_replicate, List.count_replicate]
  have hbeq1 : (Roughness.C == Roughness.D) = false := by decide
  have hbeq2 : (Roughness.C == Roughness.B) = false := by decide
  rw [hbeq1, hbeq2, req_D_at_10, req_B_at_10,
    if_neg (by norm_num [PIXEL_SIZE_M]), if_neg (by norm_num [PIXEL_SIZE_M])]

lemma nlcd_11 : nlcd_to_roughness 11 = .D := by decide

lemma nlcd_41 : nlcd_to_roughness 41 = .B := by decide

lemma nlcd_31 : nlcd_to_roughness 31 = .C := by decide

lemma sample_ite (b : ℚ) (v w : ℤ) (fetch : ℚ) :
    sample_upwind_roughness (fun _ => if b = 0 then some v else some w) fetch =
      if b = 0 then List.replicate (steps_of_fetch fetch) (nlcd_to_roughness v)
      else List.replicate (steps_of_fetch fetch) (nlcd_to_roughness w) := by
  by_cases hb : b = 0
  · simp only [if_pos hb]
    exact sample_const v fetch
  · simp only [if_neg hb]
    exact sample_const w fetch

lemma map_exposure_direction_results (lookup : ℚ → ℕ → Option ℤ) (h : ℚ) :
    (direction_results lookup h).map (fun dr => dr.exposure) =
      DIRECTIONS.map (fun d => determine_exposure
        (sample_upwind_roughness (lookup d.2) (max (20 * h) 5000)) h) := by
  unfold direction_results
  rw [List.map_map]
  rfl

/-- C2's scenario evaluated on the code: with the land-cover lookup
returning 11 (open water) at every sampled point in every direction, at
height 10 ft every direction gathers the full 50 open-water samples over
the required 5000 ft fetch, yet the D-attributed length is only
50·30·3.281 = 4921.5 ft < 5000 ft, so every direction reduces to C and
the governing exposure is C — not D as the claim requires. -/
theorem c2_all_water_yields_C :
    ((exposure (fun _ _ => some 11) (some 0) none (some 0) none none
        10).toOption.map
      (fun r => (r.governing_exposure,
        r.directions.map (fun dr => dr.exposure)))) =
      some (.C, List.replicate 8 .C) ∧
    sample_upwind_roughness (fun _ => some 11) (max (20 * 10) 5000) =
      List.replicate 50 .D ∧
    determine_exposure (List.replicate 50 .D) 10 = .C := by
  have hsample : sample_upwind_roughness (fun _ => some (11 : ℤ))
      (max (20 * 10) 5000) = List.replicate 50 .D := by
    rw [fetch_at_10, sample_const, steps_of_fetch_5000, nlcd_11]
  refine ⟨?_, hsample, det_50D_at_10⟩
  have hok := exposure_eq_ok (fun _ _ => some 11) (some 0) none (some 0) none
    none 10 0 0 rfl rfl (by norm_num) (by norm_num) (by norm_num)
    (by norm_num) (by norm_num)
  rw [hok]
  have hdirs : (direction_results (fun _ _ => some 11) 10).map
      (fun dr => dr.exposure) = List.replicate 8 Roughness.C := by
    rw [map_exposure_direction_results]
    show List.map _ DIRECTIONS = _
    unfold DIRECTIONS
    simp only [List.map_cons, List.map_nil]
    rw [hsample, det_50D_at_10]
    rfl
  show some ((report (fun _ _ => some 11) 0 0 10).governing_exposure,
    (direction_results (fun _ _ => some 11) 10).map (fun dr => dr.exposure)) =
    some (.C, List.replicate 8 .C)
  rw [report_governing, hdirs, governing_of_eq]
  simp [List.mem_replicate]

/-- C1 counterexample: with forest (41) upwind to the north and open
terrain (31) in the seven other directions, at height 10 ft the eight
per-direction categories are [B, C, C, C, C, C, C, C] — no D and seven
directions resolving C — yet the governing exposure is B, not C: the
code's accumulator promotes any B over C, refuting both the "B iff all
eight are B" and the "C in every other case" parts of the claim. -/
theorem c1_counterexample :
    ((exposure (fun b _ => if b = 0 then some 41 else some 31)
        (some 40) none (some (-100)) none none 10).toOption.map
      (fun r => (r.governing_exposure,
        r.directions.map (fun dr => dr.exposure)))) =
      some (.B, [.B, .C, .C, .C, .C, .C, .C, .C]) := by
  have hok := exposure_eq_ok (fun b _ => if b = 0 then some 41 else some 31)
    (some 40) none (some (-100)) none none 10 40 (-100) rfl rfl
    (by norm_num) (by norm_num) (by norm_num) (by norm_num) (by norm_num)
  rw [hok]
  have hdirs : (direction_results
      (fun b _ => if b = 0 then some 41 else some 31) 10).map
      (fun dr => dr.exposure) =
      [Roughness.B, .C, .C, .C, .C, .C, .C, .C] := by
    rw [map_exposure_direction_results]
    show List.map _ DIRECTIONS = _
    unfold DIRECTIONS
    simp only [List.map_cons, List.map_nil, fetch_at_10, sample_ite,
      steps_of_fetch_5000, nlcd_41, nlcd_31]
    norm_num [det_50B_at_10, det_50C_at_10]
  show some ((report (fun b _ => if b = 0 then some 41 else some 31)
      40 (-100) 10).governing_exposure,
    (direction_results (fun b _ => if b = 0 then some 41 else some 31)
      10).map (fun dr => dr.exposure)) =
    some (.B, [.B, .C, .C, .C, .C, .C, .C, .C])
  rw [report_governing, hdirs, governing_of_eq]
  simp

/-- C1 amended: for every valid request, the governing exposure is one of
B, C, D; it is D iff some direction resolves to D; it is B iff no
direction resolves to D and at least one resolves to B; and it is C iff
every direction resolves to C — a single B direction among C directions
governs B, not C. -/
theorem c1_amended (lookup : ℚ → ℕ → Option ℤ)
    (lat latitude lon lng longitude : Option ℚ) (h lv lov : ℚ)
    (hlat : resolve_latitude lat latitude = some lv)
    (hlon : resolve_longitude lon lng longitude = some lov)
    (h0 : 0 < h) (h1 : -90 ≤ lv) (h2 : lv ≤ 90)
    (h3 : -180 ≤ lov) (h4 : lov ≤ 180) :
    ∃ r, exposure lookup lat latitude lon lng longitude h = .ok r ∧
      (r.governing_exposure = .B ∨ r.governing_exposure = .C ∨
        r.governing_exposure = .D) ∧
      (r.governing_exposure = .D ↔
        .D ∈ r.directions.map (fun dr => dr.exposure)) ∧
      (r.governing_exposure = .B ↔
        (.D ∉ r.directions.map (fun dr => dr.exposure) ∧
         .B ∈ r.directions.map (fun dr => dr.exposure))) ∧
      (r.governing_exposure = .C ↔
        (.D ∉ r.directions.map (fun dr => dr.exposure) ∧
         .B ∉ r.directions.map (fun dr => dr.exposure))) := by
  refine ⟨report lookup lv lov h,
    exposure_eq_ok lookup lat latitude lon lng longitude h lv lov
      hlat hlon h0 h1 h2 h3 h4, ?_⟩
  have hdir : (report lookup lv lov h).directions =
      direction_results lookup h := rfl
  rw [hdir, report_governing, governing_of_eq]
  by_cases hD : Roughness.D ∈ (direction_results lookup h).map
      (fun dr => dr.exposure) <;>
    by_cases hB : Roughness.B ∈ (direction_results lookup h).map
      (fun dr => dr.exposure) <;>
    simp [hD, hB]

/-- Witness for C1 amended at a concrete request whose lookup always
fails. -/
theorem c1_amended_witness :
    ∃ r, exposure (fun _ _ => none)
        (some 40) none (some (-100)) none none 10 = .ok r ∧
      (r.governing_exposure = .B ∨ r.governing_exposure = .C ∨
        r.governing_exposure = .D) ∧
      (r.governing_exposure = .D ↔
        .D ∈ r.directions.map (fun dr => dr.exposure)) ∧
      (r.governing_exposure = .B ↔
        (.D ∉ r.directions.map (fun dr => dr.exposure) ∧
         .B ∈ r.directions.map (fun dr => dr.exposure))) ∧
      (r.governing_exposure = .C ↔
        (.D ∉ r.directions.map (fun dr => dr.exposure) ∧
         .B ∉ r.directions.map (fun dr => dr.exposure))) :=
  c1_amended (fun _ _ => none) (some 40) none (some (-100)) none none
    10 40 (-100) rfl rfl (by norm_num) (by norm_num) (by norm_num)
    (by norm_num) (by norm_num)

/-- The sampler as C4 words it: every step yields one classified sample,
a failed lookup contributing the conservative default C via the
classifier's unavailable branch instead of being dropped. -/
def sample_upwind_roughness_padC (lookup : ℕ → Option ℤ) (fetch_ft : ℚ) :
    List Roughness :=
  (List.range' 1 (steps_of_fetch fetch_ft)).map (fun i => classify (lookup i))

/-- C4 counterexample: with a lookup that fails at step 1 only, a 5000 ft
fetch has 50 steps but the direction collects only 49 samples — the
failed step is skipped by `continue`, not recorded as a C sample, so the
direction does not yield one classified sample per step. -/
theorem c4_counterexample :
    (sample_upwind_roughness (fun i => if i = 1 then none else some 11)
      5000).length = 49 ∧
    steps_of_fetch 5000 = 50 := by
  constructor
  · unfold sample_upwind_roughness
    rw [steps_of_fetch_5000]
    decide
  · exact steps_of_fetch_5000

/-- C4 amended: a single-step lookup failure never aborts the direction —
the failed step is skipped rather than classified, so the direction
yields one sample per successful step; because skipped steps contribute
no B or D evidence, the per-direction category is nonetheless exactly
what it would be had each failure been recorded as the conservative
default C. -/
theorem c4_amended (lookup : ℕ → Option ℤ) (fetch h : ℚ) :
    determine_exposure (sample_upwind_roughness lookup fetch) h =
      determine_exposure (sample_upwind_roughness_padC lookup fetch) h ∧
    (sample_upwind_roughness lookup fetch).length =
      ((List.range' 1 (steps_of_fetch fetch)).filter
        (fun i => (lookup i).isSome)).length := by
  have key : ∀ (l : List ℕ) (r : Roughness), r ≠ .C →
      (l.filterMap (fun i => (lookup i).map nlcd_to_roughness)).count r =
        (l.map (fun i => classify (lookup i))).count r := by
    intro l r hr
    induction l with
    | nil => rfl
    | cons a t ih =>
      cases hla : lookup a with
      | none =>
        rw [List.map_cons, List.filterMap_cons, hla]
        show List.count r
            (t.filterMap (fun i => (lookup i).map nlcd_to_roughness)) =
          List.count r
            (classify none :: t.map (fun i => classify (lookup i)))
        rw [List.count_cons, ih]
        have hb : (classify none == r) = false := by
          cases r <;> simp_all [classify]
        rw [hb]
        simp
      | some v =>
        rw [List.map_cons, List.filterMap_cons, hla]
        show List.count r (nlcd_to_roughness v ::
            t.filterMap (fun i => (lookup i).map nlcd_to_roughness)) =
          List.count r
            (classify (some v) :: t.map (fun i => classify (lookup i)))
        rw [List.count_cons, List.count_cons, ih]
        rfl
  have len : ∀ l : List ℕ,
      (l.filterMap (fun i => (lookup i).map nlcd_to_roughness)).length =
        (l.filter (fun i => (lookup i).isSome)).length := by
    intro l
    induction l with
    | nil => rfl
    | cons a t ih =>
      cases hla : lookup a with
      | none => simp [List.filterMap_cons, List.filter_cons, hla, ih]
      | some v => simp [List.filterMap_cons, List.filter_cons, hla, ih]
  constructor
  · unfold determine_exposure sample_upwind_roughness
      sample_upwind_roughness_padC
    rw [key _ Roughness.D (by decide), key _ Roughness.B (by decide)]
  · unfold sample_upwind_roughness
    exact len _

/-- C6: a request whose resolved latitude is outside [-90, 90], or whose
resolved longitude is outside [-180, 180], or whose height is not
positive, is rejected with a request error; the outcome is the same for
every lookup, so no sampling or land-cover lookup influences it. -/
theorem c6_validation_rejects (lookup lookup' : ℚ → ℕ → Option ℤ)
    (lat latitude lon lng longitude : Option ℚ) (h : ℚ)
    (hbad : h ≤ 0 ∨
      (∃ lv, resolve_latitude lat latitude = some lv ∧
        ¬(-90 ≤ lv ∧ lv ≤ 90)) ∨
      (∃ lov, resolve_longitude lon lng longitude = some lov ∧
        ¬(-180 ≤ lov ∧ lov ≤ 180))) :
    (∃ e, exposure lookup lat latitude lon lng longitude h = .error e) ∧
    exposure lookup lat latitude lon lng longitude h =
      exposure lookup' lat latitude lon lng longitude h := by
  unfold exposure
  rcases hbad with hb | ⟨lv, hlv, hrange⟩ | ⟨lov, hlov, hrange⟩
  · simp only [if_pos (not_lt.mpr hb)]
    exact ⟨⟨.heightNotPositive, rfl⟩, by trivial⟩
  · by_cases h0 : 0 < h
    · simp only [if_neg (not_not_intro h0), hlv]
      cases hlov : resolve_longitude lon lng longitude with
      | none => exact ⟨⟨.missingCoords, rfl⟩, by trivial⟩
      | some lov =>
        simp only [if_pos hrange]
        exact ⟨⟨.latOutOfRange, rfl⟩, by trivial⟩
    · simp only [if_pos h0]
      exact ⟨⟨.heightNotPositive, rfl⟩, by trivial⟩
  · by_cases h0 : 0 < h
    · simp only [if_neg (not_not_intro h0), hlov]
      cases hlv : resolve_latitude lat latitude with
      | none => exact ⟨⟨.missingCoords, rfl⟩, by trivial⟩
      | some lv =>
        by_cases hlr : -90 ≤ lv ∧ lv ≤ 90
        · simp only [if_neg (not_not_intro hlr), if_pos hrange]
          exact ⟨⟨.lonOutOfRange, rfl⟩, by trivial⟩
        · simp only [if_pos hlr]
          exact ⟨⟨.latOutOfRange, rfl⟩, by trivial⟩
    · simp only [if_pos h0]
      exact ⟨⟨.heightNotPositive, rfl⟩, by trivial⟩

/-- Witness for C6 at latitude 91 with two different lookups. -/
theorem c6_validation_rejects_witness :
    (∃ e, exposure (fun _ _ => some 11) (some 91) none (some 0) none none
      10 = .error e) ∧
    exposure (fun _ _ => some 11) (some 91) none (some 0) none none 10 =
      exposure (fun _ _ => none) (some 91) none (some 0) none none 10 :=
  c6_validation_rejects (fun _ _ => some 11) (fun _ _ => none)
    (some 91) none (some 0) none none 10
    (Or.inr (Or.inl ⟨91, rfl, by norm_num⟩))

/-- C8: every valid request yields exactly eight DirectionResults, one
per canonical bearing of the fixed set N, NE, E, SE, S, SW, W, NW at 45°
spacing, in the fixed order of `DIRECTIONS`. -/
theorem c8_eight_directions (lookup : ℚ → ℕ → Option ℤ) (lv lov h : ℚ)
    (h0 : 0 < h) (h1 : -90 ≤ lv) (h2 : lv ≤ 90)
    (h3 : -180 ≤ lov) (h4 : lov ≤ 180) :
    ∃ r, exposure lookup (some lv) none (some lov) none none h = .ok r ∧
      r.directions.map (fun dr => (dr.direction, dr.bearing_deg)) =
        DIRECTIONS ∧
      r.directions.length = 8 ∧
      DIRECTIONS.map (fun d => d.1) =
        ["N", "NE", "E", "SE", "S", "SW", "W", "NW"] ∧
      DIRECTIONS.map (fun d => d.2) =
        [0, 45, 90, 135, 180, 225, 270, 315] ∧
      List.Chain' (fun a b : ℚ => b - a = 45) (DIRECTIONS.map (fun d => d.2)) := by
  refine ⟨report lookup lv lov h,
    exposure_eq_ok lookup (some lv) none (some lov) none none h lv lov
      rfl rfl h0 h1 h2 h3 h4, ?_, ?_, rfl, rfl, ?_⟩
  · show (direction_results lookup h).map _ = _
    unfold direction_results
    rw [List.map_map]
    rfl
  · show (direction_results lookup h).length = 8
    unfold direction_results
    rw [List.length_map]
    rfl
  · unfold DIRECTIONS
    simp only [List.map_cons, List.map_nil, List.chain'_cons,
      List.chain'_singleton]
    norm_num

/-- Witness for C8 at a concrete valid request. -/
theorem c8_eight_directions_witness :
    ∃ r, exposure (fun _ _ => some 11) (some 0) none (some 0) none none
        10 = .ok r ∧
      r.directions.map (fun dr => (dr.direction, dr.bearing_deg)) =
        DIRECTIONS ∧
      r.directions.length = 8 ∧
      DIRECTIONS.map (fun d => d.1) =
        ["N", "NE", "E", "SE", "S", "SW", "W", "NW"] ∧
      DIRECTIONS.map (fun d => d.2) =
        [0, 45, 90, 135, 180, 225, 270, 315] ∧
      List.Chain' (fun a b : ℚ => b - a = 45)
        (DIRECTIONS.map (fun d => d.2)) :=
  c8_eight_directions (fun _ _ => some 11) 0 0 10 (by norm_num)
    (by norm_num) (by norm_num) (by norm_num) (by norm_num)

/-- C9: latitude is accepted under the aliases lat and latitude with lat
taking precedence, longitude under lon, lng and longitude in that
precedence order; a request missing both latitude aliases or all three
longitude aliases fails with a request error whose outcome is
lookup-independent, and a resolvable valid request echoes the resolved
alias values in its location. -/
theorem c9_alias_resolution (lookup lookup' : ℚ → ℕ → Option ℤ)
    (lat latitude lon lng longitude : Option ℚ) (a b : ℚ) (h : ℚ) :
    resolve_latitude (some a) latitude = some a ∧
    resolve_latitude none latitude = latitude ∧
    resolve_longitude (some a) lng longitude = some a ∧
    resolve_longitude none (some b) longitude = some b ∧
    resolve_longitude none none longitude = longitude ∧
    ((resolve_latitude lat latitude = none ∨
      resolve_longitude lon lng longitude = none) →
      (∃ e, exposure lookup lat latitude lon lng longitude h = .error e) ∧
      exposure lookup lat latitude lon lng longitude h =
        exposure lookup' lat latitude lon lng longitude h) ∧
    (∀ lv lov, resolve_latitude lat latitude = some lv →
      resolve_longitude lon lng longitude = some lov →
      0 < h → -90 ≤ lv → lv ≤ 90 → -180 ≤ lov → lov ≤ 180 →
      ∃ r, exposure lookup lat latitude lon lng longitude h = .ok r ∧
        r.latitude = lv ∧ r.longitude = lov) := by
  refine ⟨rfl, rfl, rfl, rfl, rfl, ?_, ?_⟩
  · intro hmiss
    unfold exposure
    by_cases h0 : 0 < h
    · simp only [if_neg (not_not_intro h0)]
      rcases hmiss with hm | hm
      · simp only [hm]
        cases resolve_longitude lon lng longitude with
        | none => exact ⟨⟨.missingCoords, rfl⟩, by trivial⟩
        | some lov => exact ⟨⟨.missingCoords, rfl⟩, by trivial⟩
      · simp only [hm]
        cases resolve_latitude lat latitude with
        | none => exact ⟨⟨.missingCoords, rfl⟩, by trivial⟩
        | some lv => exact ⟨⟨.missingCoords, rfl⟩, by trivial⟩
    · simp only [if_pos h0]
      exact ⟨⟨.heightNotPositive, rfl⟩, by trivial⟩
  · intro lv lov hlv hlov h0 h1 h2 h3 h4
    exact ⟨report lookup lv lov h,
      exposure_eq_ok lookup lat latitude lon lng longitude h lv lov
        hlv hlov h0 h1 h2 h3 h4, rfl, rfl⟩

/-- Witness for C9: latitude supplied only as the latitude alias,
longitude as lng overriding longitude; the echo holds the resolved
values. -/
theorem c9_alias_resolution_witness :
    ∃ r, exposure (fun _ _ => some 11) none (some 40) none (some (-100))
        (some 7) 10 = .ok r ∧ r.latitude = 40 ∧ r.longitude = -100 :=
  (c9_alias_resolution (fun _ _ => some 11) (fun _ _ => none)
    none (some 40) none (some (-100)) (some 7) 1 2 10).2.2.2.2.2.2
    40 (-100) rfl rfl (by norm_num) (by norm_num) (by norm_num)
    (by norm_num) (by norm_num)

end WindExposure
